import Mathlib

/-!
# Drug of the Day — verification of the core logic

Shallow embedding of the core logic of the "Drug of the Day" single-page
quiz widget: the 09:00 unlock-time helper (`next9amTs`), the daily content
selector (`pickDrugForToday`), the answer scorer (`setsEqual` and the
per-anchor results), the streak tracker, and the quiz state machine
(navigation, per-question timers, answer toggling, reset and the
completed-screen exits).

Time model: local timestamps are integers, in milliseconds. A calendar day
is exactly `86400000` ms (the embedding assumes no DST transitions, as the
source arithmetic does when it adds `24 * 3600 * 1000` ms for one day).
`JavaScript`'s `new Date(y, m, d, 9, 0, 0, 0)` — the 09:00 instant of the
calendar day containing a timestamp — is `dayStart t + 9 * msPerHour`,
where `dayStart t` is the local midnight below `t`. Calendar dates are
mapped to day numbers with the standard civil-from-days algorithm so that
concrete dates in the spec scenarios denote genuine timestamps.

`JavaScript` semantics embedded explicitly:
* `%` on integers is the truncated remainder, `Int.tmod`;
* `Math.floor` of an exact integer quotient is `Int.ediv` (`/` on `Int`);
* out-of-range array indexing returns `undefined`, embedded as `Option`
  (`List.get?`), and raises no exception;
* functions that could in principle signal an error are given an `Except`
  result so that "throws" and "returns a value" are distinguishable.
-/

-- ─────────────────────────────────────────────────────────────────────────
-- Definitions
-- ─────────────────────────────────────────────────────────────────────────

def msPerHour : Int := 3600000

def msPerDay : Int := 86400000

/-- Local midnight of the calendar day containing `t` (the `y/m/d` part of
`new Date(t)` with the time-of-day zeroed). -/
def dayStart (t : Int) : Int := t - t % msPerDay

/-- `new Date(d.getFullYear(), d.getMonth(), d.getDate(), 9, 0, 0, 0)`:
today's 09:00:00.000 local instant for the day containing `t`. -/
def nineAm (t : Int) : Int := dayStart t + 9 * msPerHour

/-- Day number of a civil date (days since 1970-01-01), Hinnant's
`days_from_civil` algorithm, used to give the spec's concrete dates their
timestamp values. -/
def daysFromCivil (y m d : Int) : Int :=
  let y' := if m ≤ 2 then y - 1 else y
  let era := (if 0 ≤ y' then y' else y' - 399) / 400
  let yoe := y' - era * 400
  let doy := (153 * (m + (if 2 < m then -3 else 9)) + 2) / 5 + d - 1
  let doe := yoe * 365 + yoe / 4 - yoe / 100 + doy
  era * 146097 + doe - 719468

/-- Local timestamp (ms) of the given civil date at `hh:mm` local time. -/
def localTs (y m d hh mm : Int) : Int :=
  daysFromCivil y m d * msPerDay + hh * msPerHour + mm * 60000

/-- `next9amTs(base)`: candidate is today's 09:00; if `base >= candidate`
roll the candidate forward one calendar day. -/
def next9amTs (base : Int) : Int :=
  let candidate := nineAm base
  if candidate ≤ base then candidate + msPerDay else candidate

/-- The fixed closed set of anchor identifiers (`AnchorId` in the source);
`class` is a Lean keyword, rendered `class_`. -/
inductive AnchorId where
  | class_ | indications | moa | adrs | interactions
deriving DecidableEq, Repr

/-- Selection mode of an anchor (`"single" | "multi"` in the source). -/
inductive AnchorType where
  | single | multi
deriving DecidableEq, Repr

/-- An answer option (`Option { id, label }` in the source; named `Opt`
here because `Option` is taken by Lean). -/
structure Opt where
  id : String
  label : String
deriving DecidableEq, Repr

/-- A question anchor. The display-only optional fields of the source
(`rationales`, `refs`) carry no logic and are omitted. -/
structure Anchor where
  id : AnchorId
  title : String
  prompt : String
  type : AnchorType
  options : List Opt
  correct : List String
  explanation : String
deriving DecidableEq, Repr

/-- A content item (`Drug` in the source); the optional display fields
`intro` and `tags` are omitted. -/
structure Drug where
  name : String
  anchors : List Anchor
deriving DecidableEq, Repr

/-- `START_DATE_ISO = "2025-09-01"`, parsed with `T09:00:00` appended as a
local time (`start9` in the source). -/
def start9 : Int := localTs 2025 9 1 9 0

/-- `boundaryNow`: today's 09:00 if `now` is at or past it, otherwise
today's 09:00 minus 24 hours (yesterday's window start). -/
def boundaryNow (now : Int) : Int :=
  if nineAm now ≤ now then nineAm now else nineAm now - 24 * msPerHour

/-- `days = Math.floor((boundaryNow - start9) / 86400000)`. -/
def daysSinceEpoch (now : Int) : Int := (boundaryNow now - start9) / msPerDay

/-- `idx = len > 0 ? ((days % len) + len) % len : 0` — `%` is the
truncated remainder of `JavaScript`, `Int.tmod`. -/
def pickIdx (now : Int) (len : Nat) : Int :=
  if 0 < len then ((daysSinceEpoch now).tmod len + len).tmod len else 0

/-- The error vocabulary of the spec for the day selector. The `Except`
layer records whether the selector throws: the source never does. -/
inductive QuizError where
  | EmptyContentError
deriving DecidableEq, Repr

/-- `pickDrugForToday`: `return len > 0 ? list[idx] : list[0]`. `JavaScript`
indexing out of range yields `undefined` (here `none`) and raises nothing,
so both branches return normally (`Except.ok`). -/
def pickDrugForToday (now : Int) (list : List Drug) : Except QuizError (Option Drug) :=
  let len := list.length
  let idx := pickIdx now len
  if 0 < len then Except.ok (list.get? idx.toNat) else Except.ok (list.get? 0)

/-- The `class` anchor of the RAMIPRIL content item. -/
def anchorClass : Anchor :=
  { id := AnchorId.class_
    title := "Drug class"
    prompt := "Which class does ramipril belong to?"
    type := AnchorType.single
    options :=
      [{ id := "ace", label := "ACE inhibitor" },
       { id := "arb", label := "Angiotensin II receptor blocker (ARB)" },
       { id := "ccb", label := "Dihydropyridine calcium‑channel blocker" },
       { id := "bb", label := "Beta‑blocker" }]
    correct := ["ace"]
    explanation := "Ramipril is an ACE inhibitor (prodrug → ramiprilat)." }

/-- The `indications` anchor of the RAMIPRIL content item. -/
def anchorIndications : Anchor :=
  { id := AnchorId.indications
    title := "Common indications"
    prompt := "Select ALL common indications."
    type := AnchorType.multi
    options :=
      [{ id := "htn", label := "Hypertension" },
       { id := "hfrEF", label := "Heart failure with reduced EF" },
       { id := "postmi", label := "Post‑MI / secondary prevention" },
       { id := "ckd", label := "CKD with albuminuria (incl. diabetic nephropathy)" },
       { id := "angina", label := "Stable angina" },
       { id := "migraine", label := "Migraine prophylaxis" }]
    correct := ["htn", "hfrEF", "postmi", "ckd"]
    explanation :=
      "HTN, HFrEF, post‑MI risk reduction, and CKD with albuminuria are standard indications." }

/-- The `moa` anchor of the RAMIPRIL content item. -/
def anchorMoa : Anchor :=
  { id := AnchorId.moa
    title := "Mechanism of action"
    prompt := "Which statement best describes the mechanism?"
    type := AnchorType.single
    options :=
      [{ id := "moa_true",
         label := "Inhibits ACE → ↓Ang II & ↓aldosterone + ↑bradykinin → vasodilation & ↓afterload" },
       { id := "moa_arb", label := "Blocks AT1 receptor (ARB) to prevent Ang II binding" },
       { id := "moa_ccb", label := "Blocks L‑type Ca²⁺ channels in vascular smooth muscle" },
       { id := "moa_renin", label := "Direct renin inhibitor reduces Ang I formation" }]
    correct := ["moa_true"]
    explanation :=
      "ACE inhibition lowers Ang II and aldosterone; reduced bradykinin breakdown contributes to vasodilation." }

/-- The `adrs` anchor of the RAMIPRIL content item. -/
def anchorAdrs : Anchor :=
  { id := AnchorId.adrs
    title := "Important adverse reactions"
    prompt := "Select ALL clinically important ADRs you would counsel/monitor for."
    type := AnchorType.multi
    options :=
      [{ id := "cough", label := "Dry cough" },
       { id := "angio", label := "Angioedema" },
       { id := "k", label := "Hyperkalaemia" },
       { id := "hypo", label := "Symptomatic hypotension/dizziness" },
       { id := "renal", label := "Rise in creatinine/AKI risk (esp. renal artery stenosis)" },
       { id := "gingiva", label := "Gingival hyperplasia" },
       { id := "brady", label := "Bradycardia" }]
    correct := ["cough", "angio", "k", "hypo", "renal"]
    explanation :=
      "ACEi: cough/angioedema (bradykinin), hyperkalaemia (↓aldosterone), hypotension; modest creatinine rise common." }

/-- The `interactions` anchor of the RAMIPRIL content item. -/
def anchorInteractions : Anchor :=
  { id := AnchorId.interactions
    title := "Important drug–drug interactions"
    prompt := "Select ALL interactions of concern."
    type := AnchorType.multi
    options :=
      [{ id := "kplus", label := "K⁺ supplements / K‑sparing diuretics (e.g., spironolactone)" },
       { id := "nsaids", label := "NSAIDs (esp. chronic)" },
       { id := "lithium", label := "Lithium" },
       { id := "dualraas", label := "Dual RAAS blockade (ARB/aliskiren), esp. in diabetes" },
       { id := "gfj", label := "Grapefruit juice" },
       { id := "ppi", label := "PPIs" }]
    correct := ["kplus", "nsaids", "lithium", "dualraas"]
    explanation :=
      "↑K⁺ risk (K‑sparing/K⁺ salts); NSAIDs blunt effect & ↑AKI; lithium levels ↑; avoid dual RAAS (AKI/hyperkalaemia)." }

/-- The RAMIPRIL content item. -/
def RAMIPRIL : Drug :=
  { name := "ramipril"
    anchors := [anchorClass, anchorIndications, anchorMoa, anchorAdrs, anchorInteractions] }

/-- `setsEqual(a, b)`: false when the sizes differ, otherwise every member
of `a` must be a member of `b`. `JavaScript` `Set`s are embedded as
`Finset String`. -/
def setsEqual (a b : Finset String) : Bool :=
  if a.card ≠ b.card then false
  else decide (a ⊆ b)

/-- One row of the `results.perAnchor` array. -/
structure AnchorResult where
  anchor : Anchor
  correct : Bool
  missed : List Opt
  wrong : List Opt
  selected : List Opt
  correctOpts : List Opt
deriving DecidableEq, Repr

/-- The per-anchor scoring step of the `results` memo: `sel` and `cor` are
the selected-id and correct-id sets, `correct` compares them with
`setsEqual`, and the option lists are filters of `a.options`. -/
def scoreAnchor (answers : AnchorId → List String) (a : Anchor) : AnchorResult :=
  let sel : Finset String := (answers a.id).toFinset
  let cor : Finset String := a.correct.toFinset
  { anchor := a
    correct := setsEqual sel cor
    missed := a.options.filter fun o => decide (o.id ∈ cor) && !(decide (o.id ∈ sel))
    wrong := a.options.filter fun o => decide (o.id ∈ sel) && !(decide (o.id ∈ cor))
    selected := a.options.filter fun o => decide (o.id ∈ sel)
    correctOpts := a.options.filter fun o => decide (o.id ∈ cor) }

/-- `results.perAnchor = drug.anchors.map(...)`. -/
def resultsPerAnchor (anchors : List Anchor) (answers : AnchorId → List String) :
    List AnchorResult :=
  anchors.map (scoreAnchor answers)

/-- An answer state selecting the wrong class (`arb`) and a partial set of
indications, used to exercise the scorer. -/
def wrongAnswers : AnchorId → List String := fun i =>
  match i with
  | AnchorId.class_ => ["arb"]
  | AnchorId.indications => ["htn", "hfrEF"]
  | _ => []

/-- The view state of the component: question index, per-anchor answers
and remaining seconds, the results/completed screen flags, the timer
toggle, and the persisted next-unlock timestamp (`dotd_next_at`). -/
structure QuizState where
  idx : Nat
  answers : AnchorId → List String
  secondsLeftBy : AnchorId → Int
  showResults : Bool
  showCompleted : Bool
  timerOn : Bool
  nextAt : Option Int

/-- Point update of a per-anchor map (the spread `{ ...prev, [id]: v }`). -/
def updateAt {β : Type} (f : AnchorId → β) (i : AnchorId) (v : β) : AnchorId → β :=
  fun j => if j = i then v else f j

/-- `initialTimes`: every anchor starts at 35 seconds. -/
def initialTimes : AnchorId → Int := fun _ => 35

/-- The initial component state: index 0, empty answers, full timers,
no results or completed screen, timer on, `nextAt` read from storage. -/
def initState (nextAt0 : Option Int) : QuizState :=
  { idx := 0
    answers := fun _ => []
    secondsLeftBy := initialTimes
    showResults := false
    showCompleted := false
    timerOn := true
    nextAt := nextAt0 }

/-- The id of the currently shown anchor (`curr = drug.anchors[idx]`; the
index is in range in every state the component reaches). -/
def currId (anchors : List Anchor) (s : QuizState) : AnchorId :=
  ((anchors.get? s.idx).map Anchor.id).getD AnchorId.class_

/-- `goNext`: advance to the next question, or show results from the last
one. -/
def goNext (total : Nat) (s : QuizState) : QuizState :=
  if s.idx + 1 < total then { s with idx := s.idx + 1 }
  else { s with showResults := true }

/-- `goBack`: retreat one question when the index is positive. -/
def goBack (s : QuizState) : QuizState :=
  if 0 < s.idx then { s with idx := s.idx - 1 } else s

/-- `toggle(id)`: `single` mode replaces the current anchor's answer list
with `[id]`; `multi` mode toggles membership (`JavaScript` `Set` insertion
order: deletion keeps order, insertion appends). -/
def toggle (anchors : List Anchor) (oid : String) (s : QuizState) : QuizState :=
  match anchors.get? s.idx with
  | none => s
  | some curr =>
    if curr.type = AnchorType.single then
      { s with answers := updateAt s.answers curr.id [oid] }
    else
      let prev := s.answers curr.id
      let nextSel := if oid ∈ prev then prev.erase oid else prev ++ [oid]
      { s with answers := updateAt s.answers curr.id nextSel }

/-- "Clear selection": resets the current anchor's answer list to `[]`. -/
def clearSelection (anchors : List Anchor) (s : QuizState) : QuizState :=
  match anchors.get? s.idx with
  | none => s
  | some curr => { s with answers := updateAt s.answers curr.id [] }

/-- The one-second timer effect: does nothing unless the timer is on and
neither results nor completed screen is shown and the current anchor still
has time; otherwise stores `Math.max(0, prev - 1)` for that anchor. -/
def tick (aid : AnchorId) (s : QuizState) : QuizState :=
  if !s.timerOn || s.showResults || s.showCompleted then s
  else if s.secondsLeftBy aid ≤ 0 then s
  else { s with secondsLeftBy := updateAt s.secondsLeftBy aid (max 0 (s.secondsLeftBy aid - 1)) }

/-- The timer checkbox. -/
def setTimerOn (b : Bool) (s : QuizState) : QuizState := { s with timerOn := b }

/-- `markReviewComplete`: persist the next 09:00 target and show the
completed screen. -/
def markReviewComplete (now : Int) (s : QuizState) : QuizState :=
  { s with nextAt := some (next9amTs now), showCompleted := true }

/-- "Try again" on the Results screen: leave results, reset the index and
the answers. (The per-question timers are not touched.) -/
def tryAgain (s : QuizState) : QuizState :=
  { s with showResults := false, idx := 0, answers := fun _ => [] }

/-- `currentLeft`: milliseconds left on the unlock countdown. -/
def currentLeft (now : Int) (s : QuizState) : Int :=
  match s.nextAt with
  | some t => max 0 (t - now)
  | none => 0

/-- "Back to home" on the Completed screen. -/
def backToHome (s : QuizState) : QuizState :=
  { s with showCompleted := false, showResults := false, idx := 0 }

/-- "Start next dose" on the Completed screen: enabled only when the
countdown has reached zero; clears the persisted `dotd_next_at`. -/
def startNextDose (now : Int) (s : QuizState) : QuizState :=
  if currentLeft now s ≤ 0 then
    { s with nextAt := none, showCompleted := false, idx := 0 }
  else s

/-- One user- or timer-driven transition of the component. -/
inductive Step (anchors : List Anchor) : QuizState → QuizState → Prop where
  | nextStep (s) : Step anchors s (goNext anchors.length s)
  | backStep (s) : Step anchors s (goBack s)
  | tickStep (s) : Step anchors s (tick (currId anchors s) s)
  | toggleStep (s oid) : Step anchors s (toggle anchors oid s)
  | clearStep (s) : Step anchors s (clearSelection anchors s)
  | timerStep (s b) : Step anchors s (setTimerOn b s)
  | completeStep (s now) : Step anchors s (markReviewComplete now s)
  | againStep (s) : Step anchors s (tryAgain s)
  | homeStep (s) : Step anchors s (backToHome s)
  | startStep (s now) : Step anchors s (startNextDose now s)

/-- The persisted streak keys: `dotd_last` (last completed date string, or
absent) and `dotd_streak` (read through `Number(... || "0")`). -/
structure Persisted where
  dotd_last : Option String
  dotd_streak : Int
deriving DecidableEq, Repr

/-- The streak update run when results are first shown: if the stored date
is not `today`, the streak becomes `old + 1` when the stored date is
`yesterday` and `1` otherwise, and both keys are written; if the stored
date is already `today`, nothing is written. -/
def recordCompletion (today yesterday : String) (p : Persisted) : Persisted :=
  if p.dotd_last ≠ some today then
    let streakVal := if p.dotd_last = some yesterday then p.dotd_streak + 1 else 1
    { dotd_last := some today, dotd_streak := streakVal }
  else p

/-- A mid-quiz state at index 2 with some answers and partly-run timers. -/
def midState : QuizState :=
  { idx := 2
    answers := wrongAnswers
    secondsLeftBy := fun _ => 20
    showResults := false
    showCompleted := false
    timerOn := true
    nextAt := none }

/-- Five seconds of the timer running on the first question. -/
def tickedState : QuizState :=
  tick AnchorId.class_ (tick AnchorId.class_ (tick AnchorId.class_
    (tick AnchorId.class_ (tick AnchorId.class_ (initState none)))))

/-- `tickedState` pushed through all five questions to the Results
screen. -/
def resultsState : QuizState :=
  goNext 5 (goNext 5 (goNext 5 (goNext 5 (goNext 5 tickedState))))

/-- A Completed-screen state whose unlock target has already passed. -/
def completedState : QuizState :=
  { idx := 4
    answers := wrongAnswers
    secondsLeftBy := fun _ => 12
    showResults := true
    showCompleted := true
    timerOn := true
    nextAt := some 100 }

-- ─────────────────────────────────────────────────────────────────────────
-- Theorems
-- ─────────────────────────────────────────────────────────────────────────

/-- C1: if the local time-of-day of `now` is strictly before 09:00:00.000,
`next9amTs` returns today's 09:00:00.000; if it is at or after 09:00:00.000
(including exactly 09:00), it returns tomorrow's 09:00:00.000. -/
theorem next9amTs_correct (now : Int) :
    (now % msPerDay < 9 * msPerHour → next9amTs now = dayStart now + 9 * msPerHour) ∧
    (9 * msPerHour ≤ now % msPerDay → next9amTs now = dayStart now + msPerDay + 9 * msPerHour) := by
  constructor <;> intro h <;>
    simp only [next9amTs, nineAm, dayStart, msPerDay, msPerHour] at * <;>
    split <;> omega

/-- Witness for C1 at two concrete instants: 2025-09-03 08:00 (before the
boundary, unlocks the same day at 09:00) and 2025-09-03 09:00 (exactly at
the boundary, rolls to 2025-09-04 09:00). -/
theorem next9amTs_correct_witness :
    next9amTs (localTs 2025 9 3 8 0) = dayStart (localTs 2025 9 3 8 0) + 9 * msPerHour ∧
    next9amTs (localTs 2025 9 3 9 0) =
      dayStart (localTs 2025 9 3 9 0) + msPerDay + 9 * msPerHour :=
  ⟨(next9amTs_correct (localTs 2025 9 3 8 0)).1 (by decide),
   (next9amTs_correct (localTs 2025 9 3 9 0)).2 (by decide)⟩

/-- C2: before today's 09:00 the selector uses yesterday's window — the day
number is computed from today's 09:00 minus 24 hours; with content length 3
and epoch 2025-09-01T09:00, now = 2025-09-03T10:00 gives index 2, and
now = 2025-09-03T08:00 gives index 1. -/
theorem pickIdx_window_correct :
    (∀ now : Int, now < nineAm now →
      daysSinceEpoch now = (nineAm now - 24 * msPerHour - start9) / msPerDay) ∧
    pickIdx (localTs 2025 9 3 10 0) 3 = 2 ∧
    pickIdx (localTs 2025 9 3 8 0) 3 = 1 := by
  refine ⟨fun now h => ?_, by decide, by decide⟩
  simp only [daysSinceEpoch, boundaryNow, if_neg (by omega : ¬ nineAm now ≤ now)]

/-- Witness for C2: at 2025-09-03T08:00 (before 09:00) the day number is
computed from the rolled-back window start, and it equals 1. -/
theorem pickIdx_window_correct_witness :
    daysSinceEpoch (localTs 2025 9 3 8 0) =
      (nineAm (localTs 2025 9 3 8 0) - 24 * msPerHour - start9) / msPerDay ∧
    daysSinceEpoch (localTs 2025 9 3 8 0) = 1 :=
  ⟨pickIdx_window_correct.1 (localTs 2025 9 3 8 0) (by decide), by decide⟩

/-- Truncated remainder of a negation (`JavaScript` `%` flips sign with the
dividend). -/
theorem neg_tmod_eq (a b : Int) : (-a).tmod b = -(a.tmod b) := by
  rw [Int.tmod_def, Int.tmod_def, Int.neg_tdiv]; ring

/-- The truncated remainder by a positive modulus is strictly above the
negated modulus. -/
theorem tmod_gt_neg (a : Int) {n : Int} (hn : 0 < n) : -n < a.tmod n := by
  rcases le_or_lt 0 a with h | h
  · have := Int.tmod_nonneg n h
    omega
  · have h1 : (-a).tmod n < n := Int.tmod_lt_of_pos (-a) hn
    have h2 := neg_tmod_eq (-a) n
    rw [neg_neg] at h2
    omega

/-- The `((d % len) + len) % len` normalization lands in `[0, len)`. -/
theorem normalized_tmod_range (d : Int) (n : Nat) (hn : 0 < n) :
    0 ≤ (d.tmod n + n).tmod n ∧ (d.tmod n + n).tmod n < n := by
  have hn' : (0 : Int) < n := by exact_mod_cast hn
  have hlo := tmod_gt_neg d hn'
  have hnn : 0 ≤ d.tmod n + n := by omega
  rw [Int.tmod_eq_emod hnn (le_of_lt hn')]
  exact ⟨Int.emod_nonneg _ (by omega), Int.emod_lt_of_pos _ hn'⟩

/-- C3 (as stated, refuted): on an empty content array the selector does
not fail with `EmptyContentError`; it returns normally, with no content
item (`list[0]` of an empty array is `undefined`). -/
theorem pickDrugForToday_empty_counterexample :
    pickDrugForToday 0 [] = Except.ok none ∧
    (Except.ok none : Except QuizError (Option Drug)) ≠
      Except.error QuizError.EmptyContentError :=
  ⟨rfl, fun h => Except.noConfusion h⟩

/-- C3 (amended): if the content array is empty, `pickDrugForToday` returns
no content item (`undefined`, i.e. `none`) — so no question can be shown —
but it raises no `EmptyContentError`. -/
theorem pickDrugForToday_empty_returns_none (now : Int) :
    pickDrugForToday now [] = Except.ok none := rfl

/-- C4: for every integer day count `d` (negative included) and every
positive content length, the normalized index `((d % len) + len) % len`
lies in `[0, len)`, and `pickIdx` computes exactly that normalization of
its `daysSinceEpoch`. -/
theorem pickIdx_range (d : Int) (len : Nat) (h : 0 < len) :
    (0 ≤ (d.tmod len + len).tmod len ∧ (d.tmod len + len).tmod len < len) ∧
    (∀ now : Int, daysSinceEpoch now = d →
      pickIdx now len = (d.tmod len + len).tmod len) := by
  refine ⟨normalized_tmod_range d len h, fun now hnow => ?_⟩
  rw [pickIdx, if_pos h, hnow]

/-- Witness for C4 at a date five days before the epoch: the day count is
−5, the normalized index for length 3 is 1 and lies in `[0, 3)`. -/
theorem pickIdx_range_witness :
    (0 ≤ ((-5 : Int).tmod 3 + 3).tmod 3 ∧ ((-5 : Int).tmod 3 + 3).tmod 3 < 3) ∧
    daysSinceEpoch (localTs 2025 8 27 10 0) = -5 ∧
    pickIdx (localTs 2025 8 27 10 0) 3 = ((-5 : Int).tmod 3 + 3).tmod 3 :=
  ⟨(pickIdx_range (-5) 3 (by decide)).1, by decide,
   (pickIdx_range (-5) 3 (by decide)).2 (localTs 2025 8 27 10 0) (by decide)⟩

/-- `setsEqual` decides extensional equality of the two sets. -/
theorem setsEqual_iff (a b : Finset String) : setsEqual a b = true ↔ a = b := by
  unfold setsEqual
  split
  · rename_i hcard
    simp only [Bool.false_eq_true, false_iff]
    intro h
    exact hcard (congrArg Finset.card h)
  · rename_i hcard
    rw [not_not] at hcard
    simp only [decide_eq_true_eq]
    constructor
    · intro h
      exact Finset.eq_of_subset_of_card_le h (le_of_eq hcard.symm)
    · intro h
      exact h ▸ Finset.Subset.refl a

/-- C5: the scorer marks an anchor correct exactly when the selected-id set
equals the correct-id set as sets, and — when the correct ids and selected
ids are drawn from the anchor's options — the ids of `missed` are
`correct ∖ selected` and the ids of `wrong` are `selected ∖ correct`. -/
theorem scoreAnchor_correct (answers : AnchorId → List String) (a : Anchor)
    (hcor : ∀ c ∈ a.correct, c ∈ a.options.map Opt.id)
    (hsel : ∀ s ∈ answers a.id, s ∈ a.options.map Opt.id) :
    ((scoreAnchor answers a).correct = true ↔
      (answers a.id).toFinset = a.correct.toFinset) ∧
    ((scoreAnchor answers a).missed.map Opt.id).toFinset =
      a.correct.toFinset \ (answers a.id).toFinset ∧
    ((scoreAnchor answers a).wrong.map Opt.id).toFinset =
      (answers a.id).toFinset \ a.correct.toFinset := by
  refine ⟨by simpa [scoreAnchor] using setsEqual_iff _ _, ?_, ?_⟩
  · ext x
    simp only [scoreAnchor, List.mem_toFinset, List.mem_map, List.mem_filter,
      Bool.and_eq_true, Bool.not_eq_true', decide_eq_true_eq,
      decide_eq_false_iff_not, Finset.mem_sdiff]
    constructor
    · rintro ⟨o, ⟨ho, h1, h2⟩, rfl⟩
      exact ⟨h1, h2⟩
    · rintro ⟨h1, h2⟩
      obtain ⟨o, ho, rfl⟩ := List.mem_map.1 (hcor x h1)
      exact ⟨o, ⟨ho, h1, h2⟩, rfl⟩
  · ext x
    simp only [scoreAnchor, List.mem_toFinset, List.mem_map, List.mem_filter,
      Bool.and_eq_true, Bool.not_eq_true', decide_eq_true_eq,
      decide_eq_false_iff_not, Finset.mem_sdiff]
    constructor
    · rintro ⟨o, ⟨ho, h1, h2⟩, rfl⟩
      exact ⟨h1, h2⟩
    · rintro ⟨h1, h2⟩
      obtain ⟨o, ho, rfl⟩ := List.mem_map.1 (hsel x h1)
      exact ⟨o, ⟨ho, h1, h2⟩, rfl⟩

/-- Witness for C5 on the RAMIPRIL `class` anchor with selection `arb`:
the scorer's verdict and its missed/wrong id sets agree with the set-level
definitions. -/
theorem scoreAnchor_correct_witness :
    ((scoreAnchor wrongAnswers anchorClass).correct = true ↔
      (wrongAnswers AnchorId.class_).toFinset = anchorClass.correct.toFinset) ∧
    ((scoreAnchor wrongAnswers anchorClass).missed.map Opt.id).toFinset =
      anchorClass.correct.toFinset \ (wrongAnswers AnchorId.class_).toFinset ∧
    ((scoreAnchor wrongAnswers anchorClass).wrong.map Opt.id).toFinset =
      (wrongAnswers AnchorId.class_).toFinset \ anchorClass.correct.toFinset :=
  scoreAnchor_correct wrongAnswers anchorClass (by decide) (by decide)

/-- C6: the streak rules — already-completed-today leaves the persisted
state unchanged, yesterday increments, any other gap resets to 1 — and
running the update twice on the same day is the same as running it once. -/
theorem recordCompletion_correct (today yesterday : String) (p : Persisted) :
    (p.dotd_last = some today → recordCompletion today yesterday p = p) ∧
    (p.dotd_last ≠ some today → p.dotd_last = some yesterday →
      (recordCompletion today yesterday p).dotd_streak = p.dotd_streak + 1) ∧
    (p.dotd_last ≠ some today → p.dotd_last ≠ some yesterday →
      (recordCompletion today yesterday p).dotd_streak = 1) ∧
    recordCompletion today yesterday (recordCompletion today yesterday p) =
      recordCompletion today yesterday p := by
  refine ⟨fun h => ?_, fun h hy => ?_, fun h hy => ?_, ?_⟩
  · simp [recordCompletion, h]
  · have hne : yesterday ≠ today := fun he => h (by rw [hy, he])
    simp [recordCompletion, h, hy, hne]
  · simp [recordCompletion, h, hy]
  · by_cases h : p.dotd_last = some today
    · simp [recordCompletion, h]
    · simp [recordCompletion, h]

/-- Witness for C6: a streak of 3 last completed on 2025-09-02 becomes 4
when completing on 2025-09-03, and the idempotence equation holds there. -/
theorem recordCompletion_correct_witness :
    (recordCompletion "2025-09-03" "2025-09-02"
        { dotd_last := some "2025-09-02", dotd_streak := 3 }).dotd_streak = 3 + 1 ∧
    recordCompletion "2025-09-03" "2025-09-02"
        (recordCompletion "2025-09-03" "2025-09-02"
          { dotd_last := some "2025-09-02", dotd_streak := 3 }) =
      recordCompletion "2025-09-03" "2025-09-02"
        { dotd_last := some "2025-09-02", dotd_streak := 3 } :=
  ⟨(recordCompletion_correct "2025-09-03" "2025-09-02"
      { dotd_last := some "2025-09-02", dotd_streak := 3 }).2.1 (by decide) (by decide),
   (recordCompletion_correct "2025-09-03" "2025-09-02"
      { dotd_last := some "2025-09-02", dotd_streak := 3 }).2.2.2⟩

/-- C7: from any in-range state with positive index, `goBack` then `goNext`
restores the exact prior state; neither touches answers or timers; and
`goBack` at index 0 is a no-op. -/
theorem goBack_goNext_roundtrip (total : Nat) (s : QuizState) :
    (0 < s.idx → s.idx < total → goNext total (goBack s) = s) ∧
    ((goBack s).answers = s.answers ∧ (goBack s).secondsLeftBy = s.secondsLeftBy) ∧
    ((goNext total s).answers = s.answers ∧ (goNext total s).secondsLeftBy = s.secondsLeftBy) ∧
    (s.idx = 0 → goBack s = s) := by
  obtain ⟨i, ans, secs, sr, sc, ton, nx⟩ := s
  refine ⟨fun h1 h2 => ?_, ⟨?_, ?_⟩, ⟨?_, ?_⟩, fun h0 => ?_⟩
  · dsimp only at h1 h2
    simp only [goBack, goNext, if_pos h1]
    rw [if_pos (show i - 1 + 1 < total by omega)]
    simp only [QuizState.mk.injEq, and_true, true_and]
    omega
  · simp only [goBack]; split <;> rfl
  · simp only [goBack]; split <;> rfl
  · simp only [goNext]; split <;> rfl
  · simp only [goNext]; split <;> rfl
  · dsimp only at h0
    simp [goBack, h0]

/-- Witness for C7 at `midState` (index 2 of 5): back then next restores
the state, and back leaves answers and timers untouched. -/
theorem goBack_goNext_roundtrip_witness :
    goNext 5 (goBack midState) = midState ∧
    (goBack midState).answers = midState.answers :=
  ⟨(goBack_goNext_roundtrip 5 midState).1 (by decide) (by decide),
   (goBack_goNext_roundtrip 5 midState).2.1.1⟩

/-- C8 (as stated, refuted): after running the timer for five seconds and
finishing the quiz, "Try again" leaves the first question's remaining time
at 30 — not the initial 35-second constant. -/
theorem tryAgain_counterexample :
    (tryAgain resultsState).secondsLeftBy AnchorId.class_ = 30 ∧
    initialTimes AnchorId.class_ = 35 ∧ (30 : Int) ≠ 35 :=
  ⟨by decide, rfl, by decide⟩

/-- C8 (amended): "Try again" returns to index 0 on the question flow with
every anchor's answer list empty, but it leaves every anchor's remaining
time exactly as it was (the timers are not reset). -/
theorem tryAgain_resets_answers_not_timers (s : QuizState) :
    (tryAgain s).idx = 0 ∧ (tryAgain s).showResults = false ∧
    (∀ aid, (tryAgain s).answers aid = []) ∧
    (tryAgain s).secondsLeftBy = s.secondsLeftBy :=
  ⟨rfl, rfl, fun _ => rfl, rfl⟩

/-- C10: "Back to home" resets the index to 0 and keeps answers, timers
and the persisted unlock target; "Start next dose", when the countdown has
reached zero, resets the index to 0, clears the unlock target, and keeps
answers and timers — the next session starts from the previous session's
answers and remaining times. -/
theorem completed_exits_preserve (now : Int) (s : QuizState) :
    ((backToHome s).idx = 0 ∧ (backToHome s).answers = s.answers ∧
      (backToHome s).secondsLeftBy = s.secondsLeftBy ∧
      (backToHome s).nextAt = s.nextAt) ∧
    (currentLeft now s ≤ 0 →
      (startNextDose now s).idx = 0 ∧ (startNextDose now s).nextAt = none ∧
      (startNextDose now s).answers = s.answers ∧
      (startNextDose now s).secondsLeftBy = s.secondsLeftBy) := by
  refine ⟨⟨rfl, rfl, rfl, rfl⟩, fun h => ?_⟩
  simp [startNextDose, if_pos h]

/-- Witness for C10 at `completedState` with `now = 200` (gate ready):
"Start next dose" clears the gate and keeps the answers. -/
theorem completed_exits_preserve_witness :
    (startNextDose 200 completedState).idx = 0 ∧
    (startNextDose 200 completedState).nextAt = none ∧
    (startNextDose 200 completedState).answers = completedState.answers ∧
    (startNextDose 200 completedState).secondsLeftBy = completedState.secondsLeftBy :=
  (completed_exits_preserve 200 completedState).2 (by decide)

/-- `goNext` leaves the timers untouched. -/
theorem goNext_secondsLeftBy (total : Nat) (s : QuizState) :
    (goNext total s).secondsLeftBy = s.secondsLeftBy := by
  unfold goNext; split <;> rfl

/-- `goBack` leaves the timers untouched. -/
theorem goBack_secondsLeftBy (s : QuizState) :
    (goBack s).secondsLeftBy = s.secondsLeftBy := by
  unfold goBack; split <;> rfl

/-- `toggle` leaves the timers untouched. -/
theorem toggle_secondsLeftBy (anchors : List Anchor) (oid : String) (s : QuizState) :
    (toggle anchors oid s).secondsLeftBy = s.secondsLeftBy := by
  unfold toggle; split
  · rfl
  · split <;> rfl

/-- `clearSelection` leaves the timers untouched. -/
theorem clearSelection_secondsLeftBy (anchors : List Anchor) (s : QuizState) :
    (clearSelection anchors s).secondsLeftBy = s.secondsLeftBy := by
  unfold clearSelection; split <;> rfl

/-- `startNextDose` leaves the timers untouched. -/
theorem startNextDose_secondsLeftBy (now : Int) (s : QuizState) :
    (startNextDose now s).secondsLeftBy = s.secondsLeftBy := by
  unfold startNextDose; split <;> rfl

/-- A single transition keeps every anchor's remaining time non-negative:
only `tick` writes the timers, and it writes `Math.max(0, prev - 1)`. -/
theorem step_preserves_nonneg {anchors : List Anchor} {s t : QuizState}
    (hst : Step anchors s t) (h : ∀ aid, 0 ≤ s.secondsLeftBy aid) :
    ∀ aid, 0 ≤ t.secondsLeftBy aid := by
  cases hst with
  | nextStep => simpa [goNext_secondsLeftBy] using h
  | backStep => simpa [goBack_secondsLeftBy] using h
  | tickStep =>
    intro aid
    unfold tick
    split
    · exact h aid
    split
    · exact h aid
    · show 0 ≤ updateAt s.secondsLeftBy _ _ aid
      unfold updateAt
      split
      · exact le_max_left 0 _
      · exact h aid
  | toggleStep oid => simpa [toggle_secondsLeftBy] using h
  | clearStep => simpa [clearSelection_secondsLeftBy] using h
  | timerStep b => exact h
  | completeStep now => exact h
  | againStep => exact h
  | homeStep => exact h
  | startStep now => simpa [startNextDose_secondsLeftBy] using h

/-- C9: in every state reachable from the initial one, every anchor's
remaining seconds are non-negative; `tick` never drives them below 0, and
when the timer is running on an in-progress screen with time left, `tick`
decrements the active anchor's remaining seconds by exactly 1. -/
theorem timers_never_negative (anchors : List Anchor) (nextAt0 : Option Int)
    (s : QuizState)
    (hreach : Relation.ReflTransGen (Step anchors) (initState nextAt0) s) :
    (∀ aid, 0 ≤ s.secondsLeftBy aid) ∧
    (∀ aid, 0 ≤ (tick aid s).secondsLeftBy aid) ∧
    (∀ aid, s.timerOn = true → s.showResults = false → s.showCompleted = false →
      0 < s.secondsLeftBy aid →
      (tick aid s).secondsLeftBy aid = s.secondsLeftBy aid - 1) := by
  have hinv : ∀ aid, 0 ≤ s.secondsLeftBy aid := by
    induction hreach with
    | refl => intro aid; simp [initState, initialTimes]
    | tail _ hstep ih => exact step_preserves_nonneg hstep ih
  refine ⟨hinv, fun aid => ?_, fun aid ht hr hc hpos => ?_⟩
  · unfold tick
    split
    · exact hinv aid
    split
    · exact hinv aid
    · show 0 ≤ updateAt s.secondsLeftBy _ _ aid
      unfold updateAt
      split
      · exact le_max_left 0 _
      · exact hinv aid
  · unfold tick
    rw [ht, hr, hc]
    simp only [Bool.not_true, Bool.false_or, Bool.or_self, if_false]
    rw [if_neg (by omega : ¬ s.secondsLeftBy aid ≤ 0)]
    show updateAt s.secondsLeftBy aid _ aid = _
    unfold updateAt
    rw [if_pos rfl]
    omega

/-- Witness for C9 at the initial state (trivially reachable): the first
question holds 35 ≥ 0 seconds, and one tick takes it to 35 − 1. -/
theorem timers_never_negative_witness :
    0 ≤ (initState none).secondsLeftBy AnchorId.moa ∧
    (tick AnchorId.class_ (initState none)).secondsLeftBy AnchorId.class_ =
      (initState none).secondsLeftBy AnchorId.class_ - 1 :=
  ⟨(timers_never_negative RAMIPRIL.anchors none (initState none)
      Relation.ReflTransGen.refl).1 AnchorId.moa,
   (timers_never_negative RAMIPRIL.anchors none (initState none)
      Relation.ReflTransGen.refl).2.2 AnchorId.class_ rfl rfl rfl (by decide)⟩
